import Mathlib

/-!
Shallow embedding of the ephemeris-engine daemon (Go) for checking its
natural-language specification.  Each definition mirrors one function of the
source; machine integers are modelled as `Nat`/`Int` with explicit wraparound
where the Go code truncates, file contents are byte lists, and effectful
inputs (file system, network, subprocess) are passed in explicitly.
-/

namespace Ephemeris

/-- Little-endian encoding of a 16-bit value as two bytes. -/
def u16le (v : Nat) : List Nat :=
  [v % 256, v / 256 % 256]

/-- Little-endian encoding of a 32-bit value as four bytes. -/
def u32le (v : Nat) : List Nat :=
  [v % 256, v / 256 % 256, v / 65536 % 256, v / 16777216 % 256]

/-- Read a little-endian 32-bit value from four bytes at `off` in a file. -/
def readU32le (file : List Nat) (off : Nat) : Nat :=
  (file.getD off 0) + (file.getD (off + 1) 0) * 256 +
    (file.getD (off + 2) 0) * 65536 + (file.getD (off + 3) 0) * 16777216

/-- Overwrite the bytes of `file` starting at `off` with `bs`
(models a seek followed by a write inside an existing file). -/
def writeAt (file : List Nat) (off : Nat) (bs : List Nat) : List Nat :=
  file.take off ++ bs ++ file.drop (off + bs.length)

/-- The 44-byte RIFF/WAVE header written by `writeWAVHeader` for signed
16-bit little-endian mono PCM.  `dataSize = 0` is the placeholder used at
capture start; `RiffSize` is `36 + dataSize`, `ByteRate` is
`sampleRate * 1 * 16 / 8` and `BlockAlign` is `1 * 16 / 8`, as in the Go
struct literal. -/
def writeWAVHeader (sampleRate dataSize : Nat) : List Nat :=
  [82, 73, 70, 70] ++            -- "RIFF"
  u32le ((36 + dataSize) % 4294967296) ++
  [87, 65, 86, 69] ++            -- "WAVE"
  [102, 109, 116, 32] ++         -- "fmt "
  u32le 16 ++
  u16le 1 ++                     -- audio format: PCM
  u16le 1 ++                     -- channels: mono
  u32le (sampleRate % 4294967296) ++
  u32le (sampleRate * 1 * 16 / 8 % 4294967296) ++
  u16le (1 * 16 / 8) ++
  u16le 16 ++                    -- bits per sample
  [100, 97, 116, 97] ++          -- "data"
  u32le (dataSize % 4294967296)

/-- `fixWAVHeader` patches the RIFF chunk size (offset 4) and the data
sub-chunk size (offset 40) from the actual file size; files shorter than
44 bytes are left untouched.  The Go code converts the `int64` size to
`uint32`, hence the explicit wraparound. -/
def fixWAVHeader (file : List Nat) : List Nat :=
  if file.length < 44 then file
  else
    let dataSize := (file.length - 44) % 4294967296
    let riffSize := (file.length - 8) % 4294967296
    writeAt (writeAt file 4 (u32le riffSize)) 40 (u32le dataSize)

/-- The outcome of spawning and streaming from the `rtl_fm` subprocess.
`startFailed` models `cmd.Start()` returning an error (binary missing,
exec failure); `stream bytes` models a started process whose stdout yields
`bytes` before end-of-stream — a crash, `SIGKILL` at the LOS deadline, or a
read error all end the stream and are absorbed by `streamWithProgress`,
which returns the byte count without an error. -/
inductive ProcResult where
  | startFailed (e : String)
  | stream (bytes : List Nat)
deriving DecidableEq, Repr

/-- `rtlCapture`: on a start failure the wrapped error is returned;
otherwise the streamed bytes are appended to the file and the byte count
is returned with no error. -/
def rtlCapture (file : List Nat) (proc : ProcResult) :
    Except String (List Nat × Nat) :=
  match proc with
  | .startFailed e => .error ("start rtl_fm: " ++ e)
  | .stream bs => .ok (file ++ bs, bs.length)

/-- The file produced by a completed `Capture` session in which the audio
source yielded `audio`: a placeholder header, the audio bytes, and — only
when at least one audio byte was written — the `fixWAVHeader` patch. -/
def captureFile (sampleRate : Nat) (audio : List Nat) : List Nat :=
  let f0 := writeWAVHeader sampleRate 0 ++ audio
  if audio.length > 0 then fixWAVHeader f0 else f0

/-- Live-mode `Capture` as a function of the subprocess outcome: returns the
result the caller sees paired with the final on-disk file contents.  A start
failure propagates as an error and leaves the unpatched header on disk;
every streamed outcome returns success. -/
def captureLive (sampleRate : Nat) (proc : ProcResult) :
    Except String Unit × List Nat :=
  let f0 := writeWAVHeader sampleRate 0
  match rtlCapture f0 proc with
  | .error e => (.error e, f0)
  | .ok (f1, bytesWritten) =>
      (.ok (), if bytesWritten > 0 then fixWAVHeader f1 else f1)

/-- A NOAA APT satellite: common name, NORAD catalog number, downlink
frequency in hertz. -/
structure Satellite where
  Name : String
  NoradID : Int
  Freq : Int
deriving DecidableEq, Repr

/-- The hardcoded catalog of active NOAA APT satellites. -/
def Satellites : List Satellite :=
  [⟨"NOAA-15", 25338, 137620000⟩,
   ⟨"NOAA-18", 28654, 137912500⟩,
   ⟨"NOAA-19", 33591, 137100000⟩]

/-- First catalog entry with the given NORAD ID, or none. -/
def SatelliteByNoradID (id : Int) : Option Satellite :=
  Satellites.find? (fun s => s.NoradID == id)

/-- First catalog entry whose upper-cased name matches, or none. -/
def SatelliteByName (name : String) : Option Satellite :=
  Satellites.find? (fun s => s.Name.toUpper == name.toUpper)

/-- Decoded body of `POST /api/trigger`.  An omitted JSON field decodes to
the zero value (empty string, 0). -/
structure TriggerRequest where
  Satellite : String
  NoradID : Int
  DurationSeconds : Int
deriving DecidableEq, Repr

/-- The payload `handleTrigger` marshals for the scheduler command. -/
structure TriggerPayload where
  NoradID : Int
  DurationSeconds : Int
deriving DecidableEq, Repr

/-- `handleTrigger` (demo guard and method check aside): resolve the
satellite by NORAD ID first, then by name; reject unknown satellites;
coerce a non-positive duration to 600 seconds; marshal the payload. -/
def handleTrigger (req : TriggerRequest) : Option TriggerPayload :=
  let sat := if req.NoradID ≠ 0 then SatelliteByNoradID req.NoradID
             else if req.Satellite ≠ "" then SatelliteByName req.Satellite
             else none
  match sat with
  | none => none
  | some s =>
      some ⟨s.NoradID, if req.DurationSeconds ≤ 0 then 600 else req.DurationSeconds⟩

/-- `handleTriggerCommand`: look up the satellite, then build a capture
request with `AOS = now` and `LOS = now + duration` (times in seconds).
Unknown NORAD IDs reply `ok = false`, modelled as `none`. -/
def handleTriggerCommand (p : TriggerPayload) (now : Int) : Option (Int × Int) :=
  match SatelliteByNoradID p.NoradID with
  | none => none
  | some _ => some (now, now + p.DurationSeconds)

/-- Reply sent through a command channel. -/
structure CommandResult where
  OK : Bool
  Message : String := ""
  Error : String := ""
  SatellitesUpdated : Int := 0
deriving DecidableEq, Repr

/-- `handlePauseCommand` as a function of the pause flag: returns the new
flag and the reply. -/
def handlePauseCommand (paused : Bool) : Bool × CommandResult :=
  if paused then (paused, { OK := true, Message := "scheduler already paused" })
  else (true, { OK := true, Message := "scheduler paused" })

/-- `handleResumeCommand` as a function of the pause flag. -/
def handleResumeCommand (paused : Bool) : Bool × CommandResult :=
  if !paused then (paused, { OK := true, Message := "scheduler already running" })
  else (false, { OK := true, Message := "scheduler resumed" })

/-- Mirror of `scheduler.PassInfo`, the record published for the current
pass.  `float64` elevations are modelled as rationals. -/
structure PassInfo where
  Satellite : String
  NoradID : Int
  FreqHz : Int
  AOS : String
  LOS : String
  MaxElev : Rat
  Stage : String
deriving DecidableEq, Repr

/-- A broadcast `state` event: the old and the new daemon state. -/
structure StateEvent where
  fromState : String
  toState : String
deriving DecidableEq, Repr

/-- The app fields touched by `transition`: the stored state, the list of
`state` events broadcast so far, and the current-pass reference. -/
structure AppState where
  state : String
  events : List StateEvent
  currentPass : Option PassInfo
deriving DecidableEq, Repr

/-- `transition`: when the new state equals the stored state, return
unchanged without broadcasting; otherwise store the new state, broadcast
exactly one `state` event, and clear the current pass on entry to IDLE. -/
def transition (a : AppState) (newState : String) : AppState :=
  if a.state = newState then a
  else
    { state := newState,
      events := a.events ++ [⟨a.state, newState⟩],
      currentPass := if newState = "IDLE" then none else a.currentPass }

/-- Observable actions emitted by the scheduler after a capture returns. -/
inductive SchedEvent where
  | setStateEv (s : String)
  | logError (m : String)
  | logInfo (m : String)
  | statsCallback (sat : String) (bytes : Int)
deriving DecidableEq, Repr

/-- Extract the state-transition targets from an action list. -/
def stateEvents : List SchedEvent → List String
  | [] => []
  | SchedEvent.setStateEv s :: rest => s :: stateEvents rest
  | SchedEvent.logError _ :: rest => stateEvents rest
  | SchedEvent.logInfo _ :: rest => stateEvents rest
  | SchedEvent.statsCallback _ _ :: rest => stateEvents rest

/-- The tail of one main-cycle iteration, from the return of
`Capturer.Capture` to the final IDLE transition: an error is logged, a
success with a non-empty path notifies the stats callback when `os.Stat`
succeeds, then the scheduler always sets DECODING, logs the decoding
placeholder, sleeps 2 s, and sets IDLE. -/
def afterCapture (satName : String) (result : Except String String)
    (stat : String → Option Int) : List SchedEvent :=
  (match result with
   | .error e => [.logError ("capture failed: " ++ e)]
   | .ok outPath =>
       if outPath ≠ "" then
         match stat outPath with
         | some size => [.statsCallback satName size]
         | none => []
       else []) ++
  [.setStateEv "DECODING",
   .logInfo ("decoding placeholder for " ++ satName ++ " (not yet implemented)"),
   .setStateEv "IDLE"]

/-- A UTC wall-clock instant broken into calendar fields. -/
structure UTCTime where
  year : Nat
  month : Nat
  day : Nat
  hour : Nat
  minute : Nat
  second : Nat
deriving DecidableEq, Repr

/-- Two-digit zero padding, as Go layout fields `01 02 15 04 05` render. -/
def pad2 (n : Nat) : String :=
  if n < 10 then "0" ++ toString n else toString n

/-- Four-digit zero padding, as the Go layout field `2006` renders years. -/
def pad4 (n : Nat) : String :=
  if n < 10 then "000" ++ toString n
  else if n < 100 then "00" ++ toString n
  else if n < 1000 then "0" ++ toString n
  else toString n

/-- Rendering of a UTC instant with the Go layout `20060102T150405Z`. -/
def formatCompactUTC (t : UTCTime) : String :=
  pad4 t.year ++ pad2 t.month ++ pad2 t.day ++ "T" ++
    pad2 t.hour ++ pad2 t.minute ++ pad2 t.second ++ "Z"

set_option linter.unusedVariables false in
/-- The output filename computed at the top of `Capture`.  `now` models the
wall-clock instant at which the file is created; the code derives the name
from `req.AOS` alone (`req.AOS.UTC().Format("20060102T150405Z")`), so `now`
is unused. -/
def captureOutputFilename (satName : String) (aos : UTCTime)
    (now : UTCTime) : String :=
  satName ++ "_" ++ formatCompactUTC aos ++ ".wav"

/-- The app fields relevant to control-endpoint dispatch: whether demo mode
is configured and whether a live scheduler was constructed. -/
structure DaemonApp where
  demoEnabled : Bool
  scheduler : Option Unit
deriving DecidableEq, Repr

/-- `App.Run` wiring: a scheduler is constructed only when demo mode is
off; in demo mode the field stays nil and a demo runner is started
instead. -/
def appRunWiring (demoEnabled : Bool) : DaemonApp :=
  { demoEnabled, scheduler := if demoEnabled then none else some () }

/-- An HTTP response from a control handler: either the `jsonError` shape
`{ok:false, error:msg}` with a status code, or a `writeCommandResult`
rendering of a scheduler reply (status 500 when `ok` is false). -/
inductive HTTPReply where
  | errorReply (status : Nat) (msg : String)
  | resultReply (status : Nat) (result : CommandResult)
deriving DecidableEq, Repr

/-- The six control endpoints guarded by the demo check. -/
inductive ControlEndpoint where
  | trigger | tleRefresh | pause | resume | skip | cancel
deriving DecidableEq, Repr

/-- Shared shape of `handleTrigger`, `handleTLERefresh`, `handlePause`,
`handleResume`, `handleSkip` and `handleCancel` (method check aside): when
no scheduler exists the request is rejected with `jsonError` 409 and the
app is untouched; otherwise the command is dispatched to the scheduler and
its reply rendered. -/
def handleControl (app : DaemonApp) (ep : ControlEndpoint)
    (dispatch : ControlEndpoint → DaemonApp → CommandResult × DaemonApp) :
    HTTPReply × DaemonApp :=
  match app.scheduler with
  | none => (.errorReply 409 "not available in demo mode", app)
  | some _ =>
      let res := dispatch ep app
      (.resultReply (if res.1.OK then 200 else 500) res.1, res.2)

/-- One visibility window as returned by the propagation library. -/
structure RawPass where
  AOS : Int
  LOS : Int
  MaxElevation : Rat
  MaxElevationTime : Int
  AOSAzimuth : Rat
  LOSAzimuth : Rat
  Duration : Int
deriving DecidableEq, Repr

/-- A predicted pass for one catalog satellite. -/
structure Pass where
  Satellite : Satellite
  AOS : Int
  LOS : Int
  MaxElev : Rat
  MaxElevTime : Int
  AOSAzimuth : Rat
  LOSAzimuth : Rat
  Duration : Int
deriving DecidableEq, Repr

/-- The `Pass` literal built inside the `ComputePasses` loop. -/
def mkPass (sat : Satellite) (rp : RawPass) : Pass :=
  ⟨sat, rp.AOS, rp.LOS, rp.MaxElevation, rp.MaxElevationTime,
   rp.AOSAzimuth, rp.LOSAzimuth, rp.Duration⟩

/-- Body of the per-satellite loop: a satellite without TLE data (or whose
propagation failed) is logged and skipped; windows whose peak elevation is
below the minimum are dropped; the rest are appended. -/
def passStep (minElevation : Rat) (gen : Int → Option (List RawPass))
    (acc : List Pass) (sat : Satellite) : List Pass :=
  match gen sat.NoradID with
  | none => acc
  | some raws =>
      acc ++ (raws.filter (fun rp => !decide (rp.MaxElevation < minElevation))).map (mkPass sat)

/-- `ComputePasses` after TLEs were fetched: accumulate every satellite's
filtered windows, then sort with `sort.Slice` under the comparison
`passes[i].AOS.Before(passes[j].AOS)`, which orders the result
non-decreasingly by AOS. -/
def ComputePasses (minElevation : Rat) (gen : Int → Option (List RawPass)) : List Pass :=
  List.insertionSort (fun a b => a.AOS ≤ b.AOS)
    (Satellites.foldl (passStep minElevation gen) [])

/-- `ComputePasses` with the TLE-fetch outcome explicit: a fetch error is
wrapped and returned, otherwise the pass list is computed. -/
def ComputePassesChecked (minElevation : Rat)
    (fetch : Except String (Int → Option (List RawPass))) :
    Except String (List Pass) :=
  match fetch with
  | .error e => .error ("fetch TLEs: " ++ e)
  | .ok gen => .ok (ComputePasses minElevation gen)

deriving instance DecidableEq for Except

/-- A propagation outcome giving NOAA-15 and NOAA-18 one pass each with
identical AOS instants, as the shared 1-second propagation grid permits. -/
def genEqualAOS : Int → Option (List RawPass) :=
  fun id =>
    if id = 25338 then some [⟨0, 600, 50, 300, 10, 20, 600⟩]
    else if id = 28654 then some [⟨0, 700, 60, 350, 30, 40, 700⟩]
    else none

instance passLETotal : IsTotal Pass (fun a b => a.AOS ≤ b.AOS) :=
  ⟨fun a b => Int.le_total a.AOS b.AOS⟩

instance passLETrans : IsTrans Pass (fun a b => a.AOS ≤ b.AOS) :=
  ⟨fun _ _ _ hab hbc => le_trans hab hbc⟩

/-- State of the on-disk cache file as seen by `loadOrFetch`. -/
structure DiskCache where
  statOk : Bool
  fresh : Bool
  readResult : Option String
deriving DecidableEq, Repr

/-- Outcome of the HTTP GET: transport error, or a status code plus the
result of reading the whole body. -/
inductive NetResult where
  | transportError (e : String)
  | response (status : Nat) (bodyRead : Option String)
deriving DecidableEq, Repr

/-- `fetchFromNetwork`: transport errors and body-read errors fail, any
status other than 200 fails, and a 200 response returns the body — with no
check that the body is non-empty. -/
def fetchFromNetwork : NetResult → Option String
  | .transportError _ => none
  | .response status body => if status ≠ 200 then none else body

/-- Tier 1 of `loadOrFetch`: the stat succeeded, the file is fresher than
`maxAge`, the read succeeded and the contents are non-empty. -/
def tier1 (cache : DiskCache) : Option String :=
  if cache.statOk && cache.fresh then
    match cache.readResult with
    | some b => if 0 < b.length then some b else none
    | none => none
  else none

/-- Tier 3 of `loadOrFetch`: the read succeeded and the contents are
non-empty, regardless of age. -/
def tier3 (cache : DiskCache) : Option String :=
  match cache.readResult with
  | some b => if 0 < b.length then some b else none
  | none => none

/-- Tier 4 of `loadOrFetch`: the embedded data, when non-empty. -/
def tier4 (embedded : String) : Option String :=
  if embedded ≠ "" then some embedded else none

/-- `loadOrFetch`: fresh disk cache, then network (a success also persists
the body through a temp-file-and-rename, with write failures ignored —
persistence is outside this model), then stale disk cache, then the
embedded fallback; an error is returned only when all four tiers fail. -/
def loadOrFetch (cache : DiskCache) (net : NetResult) (embedded : String) :
    Option String :=
  match tier1 cache with
  | some b => some b
  | none =>
      match fetchFromNetwork net with
      | some body => some body
      | none =>
          match tier3 cache with
          | some b => some b
          | none => tier4 embedded

/-- Modelled from the spec for the claim C2 comparison: the tier chain as
the claim words it, where the network tier requires a *non-empty* body and
the fresh-disk tier requires only existence and freshness. -/
def loadOrFetchSpec (cache : DiskCache) (net : NetResult) (embedded : String) :
    Option String :=
  if cache.statOk && cache.fresh then cache.readResult
  else
    match fetchFromNetwork net with
    | some body =>
        if 0 < body.length then some body
        else match tier3 cache with
             | some b => some b
             | none => tier4 embedded
    | none =>
        match tier3 cache with
        | some b => some b
        | none => tier4 embedded

theorem writeWAVHeader_length (sr ds : Nat) :
    (writeWAVHeader sr ds).length = 44 := by
  simp [writeWAVHeader, u16le, u32le]

theorem captureFile_length (sr : Nat) (audio : List Nat) :
    (captureFile sr audio).length = 44 + audio.length := by
  unfold captureFile fixWAVHeader writeAt
  have hlen : (writeWAVHeader sr 0 ++ audio).length = 44 + audio.length := by
    simp [writeWAVHeader_length]
  by_cases h : audio.length > 0
  · simp only [h, if_true, hlen]
    have h44 : ¬ (44 + audio.length < 44) := by omega
    simp only [h44, if_false]
    simp [u32le, hlen]
    omega
  · simp [h, hlen]

theorem getD_writeAt_before (f bs : List Nat) (off i : Nat)
    (h : i < off) (hoff : off ≤ f.length) :
    (writeAt f off bs).getD i 0 = f.getD i 0 := by
  unfold writeAt
  have hlen : (f.take off).length = off := by
    simp [List.length_take]; omega
  rw [List.append_assoc, List.getD_append _ _ _ _ (by omega : i < (f.take off).length)]
  rcases Nat.lt_or_ge i f.length with hif | hif
  · rw [List.getD_eq_getElem _ _ (by omega : i < (f.take off).length),
      List.getD_eq_getElem _ _ (by omega : i < f.length)]
    simp
  · omega

theorem getD_writeAt_inside (f bs : List Nat) (off i : Nat)
    (h1 : off ≤ i) (h2 : i < off + bs.length) (hoff : off ≤ f.length) :
    (writeAt f off bs).getD i 0 = bs.getD (i - off) 0 := by
  unfold writeAt
  have hlen : (f.take off).length = off := by
    simp [List.length_take]; omega
  rw [List.append_assoc,
    List.getD_append_right _ _ _ _ (by omega : (f.take off).length ≤ i),
    hlen, List.getD_append _ _ _ _ (by omega : i - off < bs.length)]

theorem writeAt_length (f bs : List Nat) (off : Nat)
    (h : off + bs.length ≤ f.length) :
    (writeAt f off bs).length = f.length := by
  unfold writeAt
  simp [List.length_take, List.length_drop]
  omega

theorem readU32le_writeAt (f : List Nat) (off v : Nat)
    (hoff : off + 4 ≤ f.length) (hv : v < 4294967296) :
    readU32le (writeAt f off (u32le v)) off = v := by
  have hb : (u32le v).length = 4 := by simp [u32le]
  unfold readU32le
  rw [getD_writeAt_inside f _ off off (by omega) (by omega) (by omega),
    getD_writeAt_inside f _ off (off + 1) (by omega) (by omega) (by omega),
    getD_writeAt_inside f _ off (off + 2) (by omega) (by omega) (by omega),
    getD_writeAt_inside f _ off (off + 3) (by omega) (by omega) (by omega)]
  have h0 : off - off = 0 := by omega
  have h1 : off + 1 - off = 1 := by omega
  have h2 : off + 2 - off = 2 := by omega
  have h3 : off + 3 - off = 3 := by omega
  rw [h0, h1, h2, h3]
  have e0 : (u32le v).getD 0 0 = v % 256 := rfl
  have e1 : (u32le v).getD 1 0 = v / 256 % 256 := rfl
  have e2 : (u32le v).getD 2 0 = v / 65536 % 256 := rfl
  have e3 : (u32le v).getD 3 0 = v / 16777216 % 256 := rfl
  rw [e0, e1, e2, e3]
  omega

theorem fixWAVHeader_reads (f : List Nat) (h44 : 44 ≤ f.length)
    (hbound : f.length - 8 < 4294967296) :
    readU32le (fixWAVHeader f) 4 = f.length - 8 ∧
    readU32le (fixWAVHeader f) 40 = f.length - 44 := by
  have hnot : ¬ f.length < 44 := by omega
  have hb4 : (u32le ((f.length - 8) % 4294967296)).length = 4 := by simp [u32le]
  have hinnerlen :
      (writeAt f 4 (u32le ((f.length - 8) % 4294967296))).length = f.length := by
    rw [writeAt_length _ _ _ (by omega)]
  have hsame :
      readU32le
        (writeAt (writeAt f 4 (u32le ((f.length - 8) % 4294967296))) 40
          (u32le ((f.length - 44) % 4294967296))) 4 =
      readU32le (writeAt f 4 (u32le ((f.length - 8) % 4294967296))) 4 := by
    unfold readU32le
    rw [getD_writeAt_before _ _ 40 4 (by omega) (by omega),
      getD_writeAt_before _ _ 40 5 (by omega) (by omega),
      getD_writeAt_before _ _ 40 6 (by omega) (by omega),
      getD_writeAt_before _ _ 40 7 (by omega) (by omega)]
  unfold fixWAVHeader
  rw [if_neg hnot]
  constructor
  · show readU32le
      (writeAt (writeAt f 4 (u32le ((f.length - 8) % 4294967296))) 40
        (u32le ((f.length - 44) % 4294967296))) 4 = f.length - 8
    rw [hsame, readU32le_writeAt _ _ _ (by omega) (by omega)]
    omega
  · show readU32le
      (writeAt (writeAt f 4 (u32le ((f.length - 8) % 4294967296))) 40
        (u32le ((f.length - 44) % 4294967296))) 40 = f.length - 44
    rw [readU32le_writeAt _ _ _ (by omega) (by omega)]
    omega

theorem writeWAVHeader_read4 (sr : Nat) :
    readU32le (writeWAVHeader sr 0) 4 = 36 := by
  simp [readU32le, writeWAVHeader, u16le, u32le, List.getD]

theorem writeWAVHeader_read40 (sr : Nat) :
    readU32le (writeWAVHeader sr 0) 40 = 0 := by
  simp [readU32le, writeWAVHeader, u16le, u32le, List.getD]

theorem captureFile_nil (sr : Nat) :
    captureFile sr [] = writeWAVHeader sr 0 := by
  simp [captureFile]

/-- Claim C3: for every capture that returns without error, the finished
file has RIFF chunk size (offset 4) equal to file size minus 8 and data
sub-chunk size (offset 40) equal to file size minus 44; a capture cancelled
immediately (zero audio bytes) yields a valid 44-byte WAV satisfying both
equations.  The bound keeps the `uint32` header fields from wrapping. -/
theorem capture_wav_sizes (sr : Nat) (audio : List Nat)
    (h : audio.length + 36 < 4294967296) :
    readU32le (captureFile sr audio) 4 = (captureFile sr audio).length - 8 ∧
    readU32le (captureFile sr audio) 40 = (captureFile sr audio).length - 44 ∧
    (captureFile sr []).length = 44 := by
  have hnil3 : (captureFile sr []).length = 44 := by
    rw [captureFile_nil, writeWAVHeader_length]
  rcases Nat.eq_zero_or_pos audio.length with hA | hA
  · have haudio : audio = [] := List.length_eq_zero.mp hA
    subst haudio
    refine ⟨?_, ?_, hnil3⟩
    · rw [captureFile_nil, writeWAVHeader_length, writeWAVHeader_read4]
    · rw [captureFile_nil, writeWAVHeader_length, writeWAVHeader_read40]
  · have hf0 : (writeWAVHeader sr 0 ++ audio).length = 44 + audio.length := by
      simp [writeWAVHeader_length]
    have hcf : captureFile sr audio = fixWAVHeader (writeWAVHeader sr 0 ++ audio) := by
      simp [captureFile, hA]
    have hr := fixWAVHeader_reads (writeWAVHeader sr 0 ++ audio) (by omega) (by omega)
    have hlen : (captureFile sr audio).length = 44 + audio.length :=
      captureFile_length sr audio
    have hfixlen : (fixWAVHeader (writeWAVHeader sr 0 ++ audio)).length
        = 44 + audio.length := by rw [← hcf]; exact hlen
    refine ⟨?_, ?_, hnil3⟩
    · rw [hcf, hr.1]
      omega
    · rw [hcf, hr.2]
      omega

/-- Witness for C3 at a concrete sample rate and two audio bytes. -/
theorem capture_wav_sizes_witness :
    ([7, 7] : List Nat).length + 36 < 4294967296 ∧
    (readU32le (captureFile 11025 [7, 7]) 4 = (captureFile 11025 [7, 7]).length - 8 ∧
     readU32le (captureFile 11025 [7, 7]) 40 = (captureFile 11025 [7, 7]).length - 44 ∧
     (captureFile 11025 ([] : List Nat)).length = 44) :=
  ⟨by decide, capture_wav_sizes 11025 [7, 7] (by decide)⟩

/-- Counterexample to claim C6 as stated: when the radio binary is missing,
`cmd.Start()` fails and `Capture` propagates the error instead of treating
the condition as end-of-stream; the result is not a success. -/
theorem capture_missing_binary_errors :
    (captureLive 11025 (ProcResult.startFailed "executable file not found in PATH")).1 =
      Except.error "start rtl_fm: executable file not found in PATH" ∧
    (captureLive 11025 (ProcResult.startFailed "executable file not found in PATH")).1 ≠
      Except.ok () := by
  refine ⟨rfl, ?_⟩
  intro hcontra
  simp [captureLive, rtlCapture] at hcontra

/-- Claim C6 amended: a subprocess that was started and then crashes or is
killed only ends the stream — `Capture` returns success and the partial
file is finalised exactly as `captureFile` describes; but when `Start`
itself fails (binary missing) the error is returned and the file keeps the
unpatched placeholder header. -/
theorem captureLive_spec (sr : Nat) (bs : List Nat) (e : String) :
    (captureLive sr (ProcResult.stream bs)).1 = Except.ok () ∧
    (captureLive sr (ProcResult.stream bs)).2 = captureFile sr bs ∧
    ((captureLive sr (ProcResult.stream bs)).2).length = 44 + bs.length ∧
    (captureLive sr (ProcResult.startFailed e)).1 =
      Except.error ("start rtl_fm: " ++ e) ∧
    (captureLive sr (ProcResult.startFailed e)).2 = writeWAVHeader sr 0 := by
  refine ⟨rfl, rfl, ?_, rfl, rfl⟩
  have hcf : (captureLive sr (ProcResult.stream bs)).2 = captureFile sr bs := rfl
  rw [hcf, captureFile_length]

theorem satelliteByNoradID_mem {i : Int} {s : Satellite}
    (h : SatelliteByNoradID i = some s) : s ∈ Satellites :=
  List.mem_of_find?_eq_some h

theorem satelliteByName_mem {n : String} {s : Satellite}
    (h : SatelliteByName n = some s) : s ∈ Satellites :=
  List.mem_of_find?_eq_some h

theorem catalog_id_lookup :
    ∀ s ∈ Satellites, (SatelliteByNoradID s.NoradID).isSome = true := by
  decide

/-- Claim C7: a trigger request with `duration_seconds ≤ 0` (an omitted
field included) has its effective capture duration coerced to 600 seconds
before the capture starts: the marshalled payload carries 600 and the
scheduler builds `LOS = AOS + 600`. -/
theorem trigger_duration_coerced (req : TriggerRequest) (now : Int)
    (hd : req.DurationSeconds ≤ 0) (p : TriggerPayload)
    (hp : handleTrigger req = some p) :
    p.DurationSeconds = 600 ∧
    handleTriggerCommand p now = some (now, now + 600) := by
  unfold handleTrigger at hp
  have hcoerce : (if req.DurationSeconds ≤ 0 then 600 else req.DurationSeconds) = 600 :=
    if_pos hd
  rcases Decidable.em (req.NoradID ≠ 0) with h1 | h1
  · rw [if_pos h1] at hp
    cases hid : SatelliteByNoradID req.NoradID with
    | none => rw [hid] at hp; exact Option.noConfusion hp
    | some s =>
        rw [hid] at hp
        injection hp with hp
        have hs : s ∈ Satellites := satelliteByNoradID_mem hid
        obtain ⟨t, ht⟩ := Option.isSome_iff_exists.mp (catalog_id_lookup s hs)
        subst hp
        refine ⟨hcoerce, ?_⟩
        simp [handleTriggerCommand, ht, hcoerce]
  · rw [if_neg h1] at hp
    rcases Decidable.em (req.Satellite ≠ "") with h2 | h2
    · rw [if_pos h2] at hp
      cases hid : SatelliteByName req.Satellite with
      | none => rw [hid] at hp; exact Option.noConfusion hp
      | some s =>
          rw [hid] at hp
          injection hp with hp
          have hs : s ∈ Satellites := satelliteByName_mem hid
          obtain ⟨t, ht⟩ := Option.isSome_iff_exists.mp (catalog_id_lookup s hs)
          subst hp
          refine ⟨hcoerce, ?_⟩
          simp [handleTriggerCommand, ht, hcoerce]
    · rw [if_neg h2] at hp
      exact Option.noConfusion hp

/-- Witness for C7: triggering NOAA-19 with the duration field omitted. -/
theorem trigger_duration_coerced_witness :
    (⟨"", 33591, 0⟩ : TriggerRequest).DurationSeconds ≤ 0 ∧
    handleTrigger ⟨"", 33591, 0⟩ = some ⟨33591, 600⟩ ∧
    ((⟨33591, 600⟩ : TriggerPayload).DurationSeconds = 600 ∧
     handleTriggerCommand ⟨33591, 600⟩ 1000 = some (1000, 1000 + 600)) :=
  ⟨by decide, by decide,
   trigger_duration_coerced ⟨"", 33591, 0⟩ 1000 (by decide) ⟨33591, 600⟩ (by decide)⟩

/-- Claim C8: pause and resume are idempotent — a second pause leaves the
same single paused state, a second resume the same un-paused state — and
every such command replies `ok = true`. -/
theorem pause_resume_idempotent (paused : Bool) :
    (handlePauseCommand (handlePauseCommand paused).1).1 = (handlePauseCommand paused).1 ∧
    (handlePauseCommand paused).1 = true ∧
    (handleResumeCommand (handleResumeCommand paused).1).1 = (handleResumeCommand paused).1 ∧
    (handleResumeCommand paused).1 = false ∧
    (handlePauseCommand paused).2.OK = true ∧
    (handlePauseCommand (handlePauseCommand paused).1).2.OK = true ∧
    (handleResumeCommand paused).2.OK = true ∧
    (handleResumeCommand (handleResumeCommand paused).1).2.OK = true := by
  cases paused <;> decide

/-- Claim C4: a transition from S to T with S ≠ T broadcasts exactly one
`state` event carrying `from = S, to = T` (and stores T); a transition to
the current state broadcasts nothing and leaves the app unchanged. -/
theorem transition_state_events (a : AppState) (t : String) :
    (a.state ≠ t →
      (transition a t).events = a.events ++ [⟨a.state, t⟩] ∧
      (transition a t).state = t) ∧
    (a.state = t → transition a t = a) := by
  constructor
  · intro h
    constructor <;> simp [transition, h]
  · intro h
    simp [transition, h]

/-- Witness for C4: the BOOTING to IDLE transition, and an IDLE no-op. -/
theorem transition_state_events_witness :
    ((⟨"BOOTING", [], none⟩ : AppState).state ≠ "IDLE" ∧
     ((transition ⟨"BOOTING", [], none⟩ "IDLE").events = [] ++ [⟨"BOOTING", "IDLE"⟩] ∧
      (transition ⟨"BOOTING", [], none⟩ "IDLE").state = "IDLE")) ∧
    ((⟨"IDLE", [], none⟩ : AppState).state = "IDLE" ∧
     transition ⟨"IDLE", [], none⟩ "IDLE" = ⟨"IDLE", [], none⟩) :=
  ⟨⟨by decide, (transition_state_events ⟨"BOOTING", [], none⟩ "IDLE").1 (by decide)⟩,
   ⟨rfl, (transition_state_events ⟨"IDLE", [], none⟩ "IDLE").2 rfl⟩⟩

/-- Claim C5: a capture error is logged and the scheduler then runs exactly
the same tail as a successful capture — it transitions to DECODING and then
IDLE instead of aborting the loop; every capture outcome yields precisely
the state transitions DECODING, IDLE. -/
theorem capture_error_continues (sat e : String) (stat : String → Option Int) :
    afterCapture sat (Except.error e) stat =
      SchedEvent.logError ("capture failed: " ++ e) ::
        afterCapture sat (Except.ok "") stat ∧
    stateEvents (afterCapture sat (Except.error e) stat) = ["DECODING", "IDLE"] ∧
    ∀ outPath, stateEvents (afterCapture sat (Except.ok outPath) stat) =
      ["DECODING", "IDLE"] := by
  refine ⟨rfl, rfl, ?_⟩
  intro o
  by_cases ho : o = ""
  · subst ho; rfl
  · cases hstat : stat o <;> simp [afterCapture, ho, hstat, stateEvents]

/-- Claim C9: the filename timestamp is the AOS of the request rendered as
`YYYYMMDDTHHMMSSZ` in UTC, not the file-creation time: the name is fully
determined by the satellite name and the AOS, independent of the clock. -/
theorem capture_filename_from_aos (satName : String) (aos np nq : UTCTime) :
    captureOutputFilename satName aos np = captureOutputFilename satName aos nq ∧
    captureOutputFilename satName aos np =
      satName ++ "_" ++ formatCompactUTC aos ++ ".wav" ∧
    captureOutputFilename "NOAA-19" ⟨2026, 2, 15, 14, 30, 22⟩ ⟨2030, 1, 1, 0, 0, 0⟩ =
      "NOAA-19_20260215T143022Z.wav" := by
  refine ⟨rfl, rfl, ?_⟩
  decide

/-- Claim C10: with demo mode enabled no scheduler is constructed, and
every control endpoint replies `ok = false`, error
"not available in demo mode", HTTP 409, leaving the app unchanged. -/
theorem demo_mode_rejects_control (ep : ControlEndpoint)
    (dispatch : ControlEndpoint → DaemonApp → CommandResult × DaemonApp) :
    (appRunWiring true).scheduler = none ∧
    (handleControl (appRunWiring true) ep dispatch).1 =
      .errorReply 409 "not available in demo mode" ∧
    (handleControl (appRunWiring true) ep dispatch).2 = appRunWiring true :=
  ⟨rfl, rfl, rfl⟩

theorem passStep_foldl_elev {minE : Rat} {gen : Int → Option (List RawPass)}
    (sats : List Satellite) (acc : List Pass)
    (hacc : ∀ q ∈ acc, minE ≤ q.MaxElev) :
    ∀ p ∈ sats.foldl (passStep minE gen) acc, minE ≤ p.MaxElev := by
  induction sats generalizing acc with
  | nil => simpa using hacc
  | cons s rest ih =>
      intro p hp
      refine ih (passStep minE gen acc s) ?_ p hp
      intro q hq
      unfold passStep at hq
      cases hgen : gen s.NoradID with
      | none => rw [hgen] at hq; exact hacc q hq
      | some raws =>
          rw [hgen] at hq
          rcases List.mem_append.mp hq with h | h
          · exact hacc q h
          · obtain ⟨rp, hrp, hq2⟩ := List.mem_map.mp h
            have hkeep := List.of_mem_filter hrp
            simp only [Bool.not_eq_true', decide_eq_false_iff_not] at hkeep
            rw [← hq2]
            exact le_of_not_lt hkeep

/-- Counterexample to claim C1 as stated: two satellites can rise at the
same whole-second instant, and then the returned list is not *strictly*
ascending by AOS — `sort.Slice` only guarantees a non-decreasing order. -/
theorem compute_passes_not_strictly_sorted :
    ComputePassesChecked 0 (Except.ok genEqualAOS) =
      Except.ok [mkPass ⟨"NOAA-15", 25338, 137620000⟩ ⟨0, 600, 50, 300, 10, 20, 600⟩,
                 mkPass ⟨"NOAA-18", 28654, 137912500⟩ ⟨0, 700, 60, 350, 30, 40, 700⟩] ∧
    ¬ List.Pairwise (fun a b : Pass => a.AOS < b.AOS)
      [mkPass ⟨"NOAA-15", 25338, 137620000⟩ ⟨0, 600, 50, 300, 10, 20, 600⟩,
       mkPass ⟨"NOAA-18", 28654, 137912500⟩ ⟨0, 700, 60, 350, 30, 40, 700⟩] := by
  constructor
  · decide
  · decide

/-- Claim C1 amended: every pass returned by a successful `ComputePasses`
has peak elevation at least the configured minimum, and the list is sorted
non-decreasingly (ascending with ties possible) by AOS. -/
theorem compute_passes_sorted_and_filtered (minElevation : Rat)
    (fetch : Except String (Int → Option (List RawPass))) (l : List Pass)
    (h : ComputePassesChecked minElevation fetch = Except.ok l) :
    (∀ p ∈ l, minElevation ≤ p.MaxElev) ∧
    List.Sorted (fun a b : Pass => a.AOS ≤ b.AOS) l := by
  cases fetch with
  | error e => exact Except.noConfusion h
  | ok gen =>
      injection h with h
      subst h
      constructor
      · intro p hp
        have hmem : p ∈ Satellites.foldl (passStep minElevation gen) [] :=
          (List.mem_insertionSort _).mp hp
        exact passStep_foldl_elev Satellites [] (by simp) p hmem
      · exact List.sorted_insertionSort _ _

/-- Witness for the amended C1 at the concrete propagation outcome. -/
theorem compute_passes_sorted_witness :
    ComputePassesChecked 0 (Except.ok genEqualAOS) =
      Except.ok [mkPass ⟨"NOAA-15", 25338, 137620000⟩ ⟨0, 600, 50, 300, 10, 20, 600⟩,
                 mkPass ⟨"NOAA-18", 28654, 137912500⟩ ⟨0, 700, 60, 350, 30, 40, 700⟩] ∧
    ((∀ p ∈ [mkPass ⟨"NOAA-15", 25338, 137620000⟩ ⟨0, 600, 50, 300, 10, 20, 600⟩,
             mkPass ⟨"NOAA-18", 28654, 137912500⟩ ⟨0, 700, 60, 350, 30, 40, 700⟩],
        (0 : Rat) ≤ p.MaxElev) ∧
     List.Sorted (fun a b : Pass => a.AOS ≤ b.AOS)
       [mkPass ⟨"NOAA-15", 25338, 137620000⟩ ⟨0, 600, 50, 300, 10, 20, 600⟩,
        mkPass ⟨"NOAA-18", 28654, 137912500⟩ ⟨0, 700, 60, 350, 30, 40, 700⟩]) :=
  ⟨by decide,
   compute_passes_sorted_and_filtered 0 (Except.ok genEqualAOS) _ (by decide)⟩

/-- Counterexample to claim C2 as stated: an HTTP 200 response with an
empty body *succeeds* in the code's network tier (the body is returned and
cached), whereas the claim requires the network tier to fail and the chain
to fall through to the embedded data. -/
theorem loadOrFetch_accepts_empty_body :
    loadOrFetch ⟨false, false, none⟩ (NetResult.response 200 (some "")) "E" = some "" ∧
    loadOrFetchSpec ⟨false, false, none⟩ (NetResult.response 200 (some "")) "E" = some "E" ∧
    loadOrFetch ⟨false, false, none⟩ (NetResult.response 200 (some "")) "E" ≠
      loadOrFetchSpec ⟨false, false, none⟩ (NetResult.response 200 (some "")) "E" := by
  refine ⟨rfl, rfl, ?_⟩
  decide

/-- Claim C2 amended: the four tiers are tried in order with the first
success winning and failure exactly when all four fail, where the fresh-disk
tier requires a fresh, readable, non-empty file, the network tier requires
HTTP 200 with a readable body that may be empty, the stale-disk tier a
readable non-empty file, and the embedded tier non-empty embedded data. -/
theorem loadOrFetch_tier_chain (cache : DiskCache) (net : NetResult)
    (embedded : String) :
    loadOrFetch cache net embedded =
      ((tier1 cache).or ((fetchFromNetwork net).or
        ((tier3 cache).or (tier4 embedded)))) ∧
    (loadOrFetch cache net embedded = none ↔
      tier1 cache = none ∧ fetchFromNetwork net = none ∧
        tier3 cache = none ∧ embedded = "") ∧
    (∀ s body, fetchFromNetwork (NetResult.response s body) =
      if s = 200 then body else none) ∧
    (∀ e, fetchFromNetwork (NetResult.transportError e) = none) ∧
    (∀ b, tier1 cache = some b ↔
      cache.statOk = true ∧ cache.fresh = true ∧
        cache.readResult = some b ∧ 0 < b.length) ∧
    (∀ b, tier3 cache = some b ↔ cache.readResult = some b ∧ 0 < b.length) ∧
    (∀ b, tier4 embedded = some b ↔ embedded = b ∧ embedded ≠ "") := by
  obtain ⟨so, fr, rr⟩ := cache
  refine ⟨?_, ?_, ?_, fun e => rfl, ?_, ?_, ?_⟩
  · cases h1 : tier1 ⟨so, fr, rr⟩ <;>
      cases h2 : fetchFromNetwork net <;>
      cases h3 : tier3 ⟨so, fr, rr⟩ <;>
      simp [loadOrFetch, h1, h2, h3, Option.or]
  · cases h1 : tier1 ⟨so, fr, rr⟩ <;>
      cases h2 : fetchFromNetwork net <;>
      cases h3 : tier3 ⟨so, fr, rr⟩ <;>
      by_cases he : embedded = "" <;>
      simp [loadOrFetch, tier4, h1, h2, h3, he]
  · intro s body
    by_cases hs : s = 200 <;> simp [fetchFromNetwork, hs]
  · intro b
    rcases rr with _ | c
    · cases so <;> cases fr <;> simp [tier1]
    · rcases so with _ | _
      · simp [tier1]
      · rcases fr with _ | _
        · simp [tier1]
        · by_cases hc : 0 < c.length
          · have ht : tier1 ⟨true, true, some c⟩ = some c := by simp [tier1, hc]
            rw [ht]
            constructor
            · intro h
              have hcb : c = b := by injection h
              exact ⟨rfl, rfl, h, hcb ▸ hc⟩
            · rintro ⟨-, -, h, -⟩
              exact h
          · have ht : tier1 ⟨true, true, some c⟩ = none := by simp [tier1, hc]
            rw [ht]
            constructor
            · intro h
              exact Option.noConfusion h
            · rintro ⟨-, -, h, hb⟩
              have hcb : c = b := by injection h
              subst hcb
              exact absurd hb hc
  · intro b
    rcases rr with _ | c
    · simp [tier3]
    · by_cases hc : 0 < c.length
      · have ht : tier3 ⟨so, fr, some c⟩ = some c := by simp [tier3, hc]
        rw [ht]
        constructor
        · intro h
          have hcb : c = b := by injection h
          exact ⟨h, hcb ▸ hc⟩
        · rintro ⟨h, -⟩
          exact h
      · have ht : tier3 ⟨so, fr, some c⟩ = none := by simp [tier3, hc]
        rw [ht]
        constructor
        · intro h
          exact Option.noConfusion h
        · rintro ⟨h, hb⟩
          have hcb : c = b := by injection h
          subst hcb
          exact absurd hb hc
  · intro b
    by_cases he : embedded = "" <;> simp [tier4, he]

end Ephemeris
